import Mathlib

/-!
Shallow embedding of `inspection_tool.py` (Object_Detection repository).

The program is a single-file PyQt6 GUI: load an image, run a detector,
render one rectangle plus one hover-revealed text label per detection.
We model the mutable Qt state (scene item list, button enablement, status
message, stored buffer and detection list) as an explicit `AppState`
record, and the three handlers `loadImage`, `detectObjects`,
`displayImage` as state transformers.  Calls that raise a Python
exception (colour conversion of a null buffer, Python list indexing out
of range) are modelled with `Option`: `none` is an uncaught exception
aborting the handler.  Floating-point box data is modelled with `Rat`;
Python `int()` truncation and Python end-relative list indexing are
modelled explicitly.
-/

/-- A decoded pixel buffer.  Its contents are irrelevant to every claim,
so it is an abstract identifier. -/
abbrev Image := Nat

/-- One row of `results[0].boxes.data`: x1, y1, x2, y2, confidence,
class id, all floating point in the source, modelled as rationals. -/
structure Detection where
  x1 : Rat
  y1 : Rat
  x2 : Rat
  y2 : Rat
  conf : Rat
  class_id : Rat
deriving DecidableEq

/-- Python `int()` on a float: truncation toward zero. -/
def pyInt (q : Rat) : Int :=
  Int.tdiv q.num (q.den : Int)

/-- The COCO class label table from the top of the source file,
transcribed verbatim (80 entries, note the capitalised "TV"). -/
def COCO_CLASSES : List String := [
  "person", "bicycle", "car", "motorcycle", "airplane", "bus", "train", "truck", "boat",
  "traffic light", "fire hydrant", "stop sign", "parking meter", "bench", "bird", "cat",
  "dog", "horse", "sheep", "cow", "elephant", "bear", "zebra", "giraffe", "backpack",
  "umbrella", "handbag", "tie", "suitcase", "frisbee", "skis", "snowboard", "sports ball",
  "kite", "baseball bat", "baseball glove", "skateboard", "surfboard", "tennis racket",
  "bottle", "wine glass", "cup", "fork", "knife", "spoon", "bowl", "banana", "apple",
  "sandwich", "orange", "broccoli", "carrot", "hot dog", "pizza", "donut", "cake",
  "chair", "couch", "potted plant", "bed", "dining table", "toilet", "TV", "laptop",
  "mouse", "remote", "keyboard", "cell phone", "microwave", "oven", "toaster", "sink",
  "refrigerator", "book", "clock", "vase", "scissors", "teddy bear", "hair drier",
  "toothbrush"
]

/-- Python list subscription `l[i]` with an `int` index: non-negative
indices count from the front, negative indices from the back, and an
index out of range on either side raises `IndexError` (`none`). -/
def pyListGet (l : List String) (i : Int) : Option String :=
  if 0 ≤ i then l.get? i.toNat
  else if -(l.length : Int) ≤ i then l.get? ((l.length : Int) + i).toNat
  else none

/-- The `object_name` expression of `drawBoundingBoxes`:
`COCO_CLASSES[class_id] if class_id < len(COCO_CLASSES) else
"Unknown " + str(class_id)` (an f-string in the source). -/
def resolveObjectName (class_id : Int) : Option String :=
  if class_id < (COCO_CLASSES.length : Int) then pyListGet COCO_CLASSES class_id
  else some ("Unknown " ++ toString class_id)

/-- An RGB colour (`QColor`). -/
structure Color where
  r : Nat
  g : Nat
  b : Nat
deriving DecidableEq

/-- A `QPen`: colour and width. -/
structure Pen where
  color : Color
  width : Nat
deriving DecidableEq

/-- `QPen(QColor(255, 0, 0), 3)`: the default stroke of a bounding box. -/
def redPen : Pen := ⟨⟨255, 0, 0⟩, 3⟩

/-- `QPen(QColor(0, 255, 0), 3)`: the hover highlight stroke. -/
def greenPen : Pen := ⟨⟨0, 255, 0⟩, 3⟩

/-- `Qt.GlobalColor.white`. -/
def whiteColor : Color := ⟨255, 255, 255⟩

/-- A `QFont` as used here: family, point size, bold flag. -/
structure FontSpec where
  family : String
  size : Nat
  bold : Bool
deriving DecidableEq

/-- A `QRectF(x, y, w, h)`. -/
structure RectF where
  x : Rat
  y : Rat
  w : Rat
  h : Rat
deriving DecidableEq

/-- The number of hundredths in `q`, rounded half to even (Python float
formatting semantics), computed on the exact numerator and denominator. -/
def centsHalfEven (q : Rat) : Int :=
  let n := 100 * q.num
  let d := (q.den : Int)
  let f := Int.fdiv n d
  let r := n - f * d
  if 2 * r < d then f
  else if d < 2 * r then f + 1
  else if f % 2 = 0 then f else f + 1

/-- Zero-padded two-digit rendering of a natural number below 100. -/
def padded2 (n : Nat) : String :=
  if n < 10 then "0" ++ toString n else toString n

/-- Python format specification `.2f`: fixed-point with exactly two
digits after the decimal point, rounding half to even. -/
def formatFixed2 (q : Rat) : String :=
  let c := centsHalfEven q
  let sign := if c < 0 then "-" else ""
  let a := c.natAbs
  sign ++ toString (a / 100) ++ "." ++ padded2 (a % 100)

/-- A `QGraphicsTextItem` as configured by the box constructor. -/
structure TextItem where
  text : String
  defaultTextColor : Color
  font : FontSpec
  pos : Rat × Rat
  visible : Bool
deriving DecidableEq

/-- An `InteractiveBoundingBox`: the rectangle item together with the
state the class keeps (its pen, its hover flag, its owned text item). -/
structure InteractiveBoundingBox where
  rect : RectF
  object_name : String
  confidence : Rat
  pen : Pen
  acceptHoverEvents : Bool
  textItem : TextItem
deriving DecidableEq

/-- `InteractiveBoundingBox.__init__`: default red pen of width 3,
hover events accepted, and a white bold Arial 12 label reading
the object name followed by the confidence to two decimals in
parentheses, placed 5 right of and 22 above the rectangle's top-left
corner, initially hidden. -/
def mkInteractiveBoundingBox (rect : RectF) (object_name : String)
    (confidence : Rat) : InteractiveBoundingBox :=
  { rect := rect
    object_name := object_name
    confidence := confidence
    pen := redPen
    acceptHoverEvents := true
    textItem :=
      { text := object_name ++ " (" ++ formatFixed2 confidence ++ ")"
        defaultTextColor := whiteColor
        font := ⟨"Arial", 12, true⟩
        pos := (rect.x + 5, rect.y - 22)
        visible := false } }

/-- `hoverEnterEvent`: green highlight pen, label shown. -/
def hoverEnterEvent (b : InteractiveBoundingBox) : InteractiveBoundingBox :=
  { b with pen := greenPen, textItem := { b.textItem with visible := true } }

/-- `hoverLeaveEvent`: pen reset to red, label hidden. -/
def hoverLeaveEvent (b : InteractiveBoundingBox) : InteractiveBoundingBox :=
  { b with pen := redPen, textItem := { b.textItem with visible := false } }

/-- A pointer hover event delivered to one box. -/
inductive HoverEvent where
  | enter
  | leave
deriving DecidableEq

/-- Deliver a sequence of hover events to a box, in order. -/
def applyHoverEvents (b : InteractiveBoundingBox) (evs : List HoverEvent) :
    InteractiveBoundingBox :=
  evs.foldl (fun b e =>
    match e with
    | HoverEvent.enter => hoverEnterEvent b
    | HoverEvent.leave => hoverLeaveEvent b) b

/-- One item of the `QGraphicsScene`: the pixmap of the displayed image,
an `InteractiveBoundingBox` rectangle, or a `QGraphicsTextItem` label. -/
inductive SceneItem where
  | pixmap (img : Image)
  | rect (b : InteractiveBoundingBox)
  | text (t : TextItem)
deriving DecidableEq

/-- The mutable state of `ObjectDetectionApp` relevant to its behaviour:
the stored buffer `self.image`, the stored list `self.detectionResults`,
the pixmap item reference `self.pixmapItem`, the scene's item list, the
Detect button's enabled flag, and the status bar message. -/
structure AppState where
  image : Option Image
  detectionResults : List Detection
  pixmapItem : Option Image
  scene : List SceneItem
  detectEnabled : Bool
  statusMsg : String
deriving DecidableEq

/-- The state after `__init__`/`initUI`: no image, empty detections,
no pixmap item, empty scene, Detect disabled, status "Ready". -/
def initialState : AppState :=
  { image := none
    detectionResults := []
    pixmapItem := none
    scene := []
    detectEnabled := false
    statusMsg := "Ready" }

/-- `QRectF(x1, y1, x2 - x1, y2 - y1)` for one detection row. -/
def detRect (d : Detection) : RectF :=
  ⟨d.x1, d.y1, d.x2 - d.x1, d.y2 - d.y1⟩

/-- One iteration of the `drawBoundingBoxes` loop: resolve the object
name (Python list indexing can raise, hence `Option`), build the
`InteractiveBoundingBox`, whose constructor adds its text item to the
scene, then add the rectangle item itself. -/
def renderDetection (d : Detection) : Option (List SceneItem) :=
  (resolveObjectName (pyInt d.class_id)).map (fun object_name =>
    let rectItem := mkInteractiveBoundingBox (detRect d) object_name d.conf
    [SceneItem.text rectItem.textItem, SceneItem.rect rectItem])

/-- The items `drawBoundingBoxes` appends to the scene for a given
detection list; `none` when an iteration raises `IndexError`. -/
def drawBoundingBoxes (dets : List Detection) : Option (List SceneItem) :=
  (dets.mapM renderDetection).map List.flatten

/-- The success-path items for one detection (text label first, then
the rectangle, exactly as the constructor and the loop add them). -/
def overlayPair (d : Detection) : List SceneItem :=
  match resolveObjectName (pyInt d.class_id) with
  | some object_name =>
      let rectItem := mkInteractiveBoundingBox (detRect d) object_name d.conf
      [SceneItem.text rectItem.textItem, SceneItem.rect rectItem]
  | none => []

/-- `displayImage(self, img, draw_bboxes)`: colour conversion raises on
a null buffer (`none`); otherwise the scene is cleared when a pixmap
item from a previous render exists, the new pixmap item is added and
remembered, and with `draw_bboxes` the bounding boxes are drawn.
`fitInView` changes no modelled state. -/
def displayImage (app : AppState) (img : Option Image) (draw_bboxes : Bool) :
    Option AppState :=
  match img with
  | none => none
  | some i =>
    let cleared := if app.pixmapItem.isSome then [] else app.scene
    let withPixmap := cleared ++ [SceneItem.pixmap i]
    match (if draw_bboxes then drawBoundingBoxes app.detectionResults
           else some []) with
    | none => none
    | some overlays =>
        some { app with scene := withPixmap ++ overlays, pixmapItem := some i }

/-- `loadImage(self)`.  `dialogResult` is the file dialog's outcome
(`none`: cancelled, the truthiness test fails and nothing happens) and
`decode` is `cv2.imread` (`none`: the file does not decode).  On a
confirmed path the buffer is stored, the image is displayed, the Detect
button enabled and the status updated; if `displayImage` raises, the
handler stops there with only the buffer already overwritten. -/
def loadImage (decode : String → Option Image) (dialogResult : Option String)
    (app : AppState) : AppState :=
  match dialogResult with
  | none => app
  | some filePath =>
    let img := decode filePath
    let afterStore := { app with image := img }
    match displayImage afterStore img false with
    | none => afterStore
    | some afterDisplay =>
        { afterDisplay with
            detectEnabled := true
            statusMsg := "Image Loaded Successfully" }

/-- `detectObjects(self)`.  `detector` is the YOLO model call.  With no
stored buffer the handler returns at once; otherwise it sets the working
status, stores the detector's rows, re-displays with boxes and sets the
completion status.  `none`: `displayImage` raised and the handler
aborted. -/
def detectObjects (detector : Image → List Detection) (app : AppState) :
    Option AppState :=
  match app.image with
  | none => some app
  | some img =>
    let working := { app with statusMsg := "Detecting Objects..." }
    let stored := { working with detectionResults := detector img }
    match displayImage stored (some img) true with
    | none => none
    | some afterDisplay =>
        some { afterDisplay with statusMsg := "Detection Complete" }

/-- A concrete detection used as test data: box (0,0)-(4,4), confidence
0.9, class index 2 ("car"). -/
def wDet : Detection := ⟨0, 0, 4, 4, Rat.divInt 9 10, 2⟩

/-- The fresh application state with one pending detection row. -/
def w3App : AppState := { initialState with detectionResults := [wDet] }

/-- The state after loading a first image. -/
def loadedState : AppState :=
  loadImage (fun _ => some 1) (some "first.png") initialState

/-- The state after running Detect on the first image. -/
def detectedState : AppState :=
  (detectObjects (fun _ => [wDet]) loadedState).getD initialState

/-- Predicate: the scene item is a bounding-box rectangle. -/
def isRectItem : SceneItem → Bool
  | SceneItem.rect _ => true
  | _ => false

/-- Predicate: the scene item is a text label. -/
def isTextItem : SceneItem → Bool
  | SceneItem.text _ => true
  | _ => false

lemma coco_length : COCO_CLASSES.length = 80 := by decide

lemma resolveObjectName_eq_cases (i : Int) :
    resolveObjectName i =
      if 0 ≤ i ∧ i < 80 then COCO_CLASSES.get? i.toNat
      else if 80 ≤ i then some ("Unknown " ++ toString i)
      else if -80 ≤ i then COCO_CLASSES.get? ((80 : Int) + i).toNat
      else none := by
  have h80 : (COCO_CLASSES.length : Int) = 80 := by decide
  unfold resolveObjectName pyListGet
  rw [h80]
  split_ifs <;> first | rfl | (exfalso; omega)

lemma resolveObjectName_isSome (i : Int) (h : -80 ≤ i) :
    ∃ s, resolveObjectName i = some s := by
  rw [resolveObjectName_eq_cases]
  by_cases h1 : 0 ≤ i ∧ i < 80
  · rw [if_pos h1]
    exact ⟨_, List.get?_eq_get (by rw [coco_length]; omega)⟩
  · rw [if_neg h1]
    by_cases h2 : 80 ≤ i
    · rw [if_pos h2]
      exact ⟨_, rfl⟩
    · rw [if_neg h2, if_pos h]
      exact ⟨_, List.get?_eq_get (by rw [coco_length]; omega)⟩

lemma renderDetection_eq (d : Detection)
    (h : -80 ≤ pyInt d.class_id) :
    renderDetection d = some (overlayPair d) := by
  obtain ⟨s, hs⟩ := resolveObjectName_isSome _ h
  simp [renderDetection, overlayPair, hs]

lemma drawBoundingBoxes_eq (dets : List Detection)
    (h : ∀ d ∈ dets, -80 ≤ pyInt d.class_id) :
    drawBoundingBoxes dets = some (dets.map overlayPair).flatten := by
  suffices hm : dets.mapM renderDetection = some (dets.map overlayPair) by
    unfold drawBoundingBoxes
    rw [hm]
    rfl
  induction dets with
  | nil => rfl
  | cons d ds ih =>
      have hd : -80 ≤ pyInt d.class_id := h d (List.mem_cons_self d ds)
      have hds : ∀ x ∈ ds, -80 ≤ pyInt x.class_id :=
        fun x hx => h x (List.mem_cons_of_mem d hx)
      rw [List.mapM_cons, renderDetection_eq d hd, ih hds]
      rfl

lemma overlayPair_countP_rect (d : Detection)
    (h : -80 ≤ pyInt d.class_id) :
    (overlayPair d).countP isRectItem = 1 := by
  obtain ⟨s, hs⟩ := resolveObjectName_isSome _ h
  simp [overlayPair, hs, List.countP_cons, isRectItem]

lemma overlayPair_countP_text (d : Detection)
    (h : -80 ≤ pyInt d.class_id) :
    (overlayPair d).countP isTextItem = 1 := by
  obtain ⟨s, hs⟩ := resolveObjectName_isSome _ h
  simp [overlayPair, hs, List.countP_cons, isTextItem]

lemma overlays_countP_rect (dets : List Detection)
    (h : ∀ d ∈ dets, -80 ≤ pyInt d.class_id) :
    ((dets.map overlayPair).flatten).countP isRectItem = dets.length := by
  induction dets with
  | nil => rfl
  | cons d ds ih =>
      have hd : -80 ≤ pyInt d.class_id := h d (List.mem_cons_self d ds)
      have hds : ∀ x ∈ ds, -80 ≤ pyInt x.class_id :=
        fun x hx => h x (List.mem_cons_of_mem d hx)
      simp [List.countP_append, overlayPair_countP_rect d hd, ih hds]
      omega

lemma overlays_countP_text (dets : List Detection)
    (h : ∀ d ∈ dets, -80 ≤ pyInt d.class_id) :
    ((dets.map overlayPair).flatten).countP isTextItem = dets.length := by
  induction dets with
  | nil => rfl
  | cons d ds ih =>
      have hd : -80 ≤ pyInt d.class_id := h d (List.mem_cons_self d ds)
      have hds : ∀ x ∈ ds, -80 ≤ pyInt x.class_id :=
        fun x hx => h x (List.mem_cons_of_mem d hx)
      simp [List.countP_append, overlayPair_countP_text d hd, ih hds]
      omega

lemma overlays_texts_hidden (dets : List Detection) :
    ∀ t : TextItem, SceneItem.text t ∈ (dets.map overlayPair).flatten →
      t.visible = false := by
  induction dets with
  | nil => intro t ht; simp at ht
  | cons d ds ih =>
      intro t ht
      rw [List.map_cons, List.flatten_cons, List.mem_append] at ht
      rcases ht with ht | ht
      · unfold overlayPair at ht
        rcases hr : resolveObjectName (pyInt d.class_id) with _ | s <;>
          rw [hr] at ht
        · simp at ht
        · simp only [List.mem_cons, List.not_mem_nil, or_false] at ht
          rcases ht with ht | ht
          · cases ht
            rfl
          · cases ht
      · exact ih t ht

lemma displayImage_plain (app : AppState) (img : Image) :
    displayImage app (some img) false =
      some { app with
              scene := (if app.pixmapItem.isSome then [] else app.scene)
                ++ [SceneItem.pixmap img]
              pixmapItem := some img } := by
  simp [displayImage]

lemma displayImage_draw (app : AppState) (img : Image)
    (h : ∀ d ∈ app.detectionResults, -80 ≤ pyInt d.class_id) :
    displayImage app (some img) true =
      some { app with
              scene := (if app.pixmapItem.isSome then [] else app.scene)
                ++ SceneItem.pixmap img
                  :: (app.detectionResults.map overlayPair).flatten
              pixmapItem := some img } := by
  simp [displayImage, drawBoundingBoxes_eq _ h]

lemma loadImage_success (decode : String → Option Image) (fp : String)
    (img : Image) (app : AppState) (h : decode fp = some img) :
    loadImage decode (some fp) app =
      { app with
          image := some img
          scene := (if app.pixmapItem.isSome then [] else app.scene)
            ++ [SceneItem.pixmap img]
          pixmapItem := some img
          detectEnabled := true
          statusMsg := "Image Loaded Successfully" } := by
  simp only [loadImage, h]
  rw [displayImage_plain]

lemma loadImage_failure (decode : String → Option Image) (fp : String)
    (app : AppState) (h : decode fp = none) :
    loadImage decode (some fp) app = { app with image := none } := by
  simp only [loadImage, h]
  rfl

lemma detectObjects_run (detector : Image → List Detection) (app : AppState)
    (img : Image) (himg : app.image = some img)
    (h : ∀ d ∈ detector img, -80 ≤ pyInt d.class_id) :
    detectObjects detector app =
      some { app with
              detectionResults := detector img
              scene := (if app.pixmapItem.isSome then [] else app.scene)
                ++ SceneItem.pixmap img :: ((detector img).map overlayPair).flatten
              pixmapItem := some img
              statusMsg := "Detection Complete" } := by
  simp only [detectObjects, himg]
  rw [displayImage_draw _ _ (by exact h)]

lemma hoverLeave_applyHoverEvents (evs : List HoverEvent)
    (b : InteractiveBoundingBox) :
    hoverLeaveEvent (applyHoverEvents b evs) = hoverLeaveEvent b := by
  induction evs generalizing b with
  | nil => rfl
  | cons e evs ih =>
      cases e
      · show hoverLeaveEvent (applyHoverEvents (hoverEnterEvent b) evs)
          = hoverLeaveEvent b
        rw [ih]
        rfl
      · show hoverLeaveEvent (applyHoverEvents (hoverLeaveEvent b) evs)
          = hoverLeaveEvent b
        rw [ih]
        rfl

lemma padded2_length : ∀ n, n < 100 → (padded2 n).length = 2 := by decide

/-- C1 (counterexample): the claim says a class index below 0 yields an
"Unknown" label, but at index -1 the code resolves the end-relative
table name "toothbrush" instead of "Unknown -1". -/
theorem resolveObjectName_neg_one_counterexample :
    resolveObjectName (-1) = some "toothbrush" ∧
    resolveObjectName (-1) ≠ some ("Unknown " ++ toString (-1 : Int)) := by
  exact ⟨by decide, by decide⟩

/-- C1 (amended): a truncated class index in [0,79] resolves to the
Class Label Table name at that index; an index at or above 80 resolves
to the label "Unknown " followed by the index; a negative index no
smaller than -80 resolves to the table name at position 80 + index
(Python end-relative indexing); an index below -80 raises IndexError. -/
theorem resolveObjectName_index_mapping (i : Int) :
    resolveObjectName i =
      if 0 ≤ i ∧ i < 80 then COCO_CLASSES.get? i.toNat
      else if 80 ≤ i then some ("Unknown " ++ toString i)
      else if -80 ≤ i then COCO_CLASSES.get? ((80 : Int) + i).toNat
      else none :=
  resolveObjectName_eq_cases i

/-- C2 (counterexample): when the dialog is confirmed but the file does
not decode, the claim says the Detect button is enabled and the success
status shown anyway; in the code the render of the null buffer raises
first, so neither happens. -/
theorem loadImage_null_decode_counterexample :
    (loadImage (fun _ => none) (some "bad.png") initialState).detectEnabled
        = false ∧
    (loadImage (fun _ => none) (some "bad.png") initialState).statusMsg
        ≠ "Image Loaded Successfully" := by
  exact ⟨by decide, by decide⟩

/-- C2 (amended): on a confirmed dialog, if decoding succeeds the Detect
button is enabled and the status set to the success message; if decoding
yields a null buffer the attempted render of that buffer raises, the
handler stops, and only the stored buffer (now null) has changed. -/
theorem loadImage_decode_outcome (decode : String → Option Image)
    (fp : String) (app : AppState) :
    (∀ img, decode fp = some img →
      (loadImage decode (some fp) app).detectEnabled = true ∧
      (loadImage decode (some fp) app).statusMsg = "Image Loaded Successfully") ∧
    (decode fp = none →
      loadImage decode (some fp) app = { app with image := none }) := by
  constructor
  · intro img h
    rw [loadImage_success decode fp img app h]
    exact ⟨rfl, rfl⟩
  · intro h
    exact loadImage_failure decode fp app h

/-- C2 (witness): both branches of the amended claim at concrete inputs. -/
theorem loadImage_decode_outcome_witness :
    ((loadImage (fun _ => some 7) (some "a.png") initialState).detectEnabled
        = true ∧
      (loadImage (fun _ => some 7) (some "a.png") initialState).statusMsg
        = "Image Loaded Successfully") ∧
    loadImage (fun _ => none) (some "a.png") initialState
      = { initialState with image := none } :=
  ⟨(loadImage_decode_outcome (fun _ => some 7) "a.png" initialState).1 7 rfl,
    (loadImage_decode_outcome (fun _ => none) "a.png" initialState).2 rfl⟩

/-- C3: rendering with overlays first drops all previously rendered
content, places the image item first, and then creates exactly one
rectangle and one initially hidden text label per detection, in list
order (the scene equals the pixmap followed by the per-detection
overlay pairs). -/
theorem displayImage_overlay_render (app : AppState) (img : Image)
    (hclean : app.pixmapItem = none → app.scene = [])
    (hvalid : ∀ d ∈ app.detectionResults, -80 ≤ pyInt d.class_id) :
    ∃ s, displayImage app (some img) true = some s ∧
      s.scene = SceneItem.pixmap img
        :: (app.detectionResults.map overlayPair).flatten ∧
      s.scene.countP isRectItem = app.detectionResults.length ∧
      s.scene.countP isTextItem = app.detectionResults.length ∧
      ∀ t : TextItem, SceneItem.text t ∈ s.scene → t.visible = false := by
  have hpref : (if app.pixmapItem.isSome then [] else app.scene)
      = ([] : List SceneItem) := by
    rcases hpm : app.pixmapItem with _ | p
    · simpa [hpm] using hclean hpm
    · simp [hpm]
  refine ⟨_, displayImage_draw app img hvalid, ?_, ?_, ?_, ?_⟩
  · rw [hpref, List.nil_append]
  · rw [hpref, List.nil_append, List.countP_cons]
    simp [isRectItem, overlays_countP_rect _ hvalid]
  · rw [hpref, List.nil_append, List.countP_cons]
    simp [isTextItem, overlays_countP_text _ hvalid]
  · intro t ht
    rw [hpref, List.nil_append, List.mem_cons] at ht
    rcases ht with ht | ht
    · cases ht
    · exact overlays_texts_hidden _ t ht

/-- C3 (witness): the overlay render at a concrete one-detection state. -/
theorem displayImage_overlay_render_witness :
    (w3App.pixmapItem = none → w3App.scene = []) ∧
    (∀ d ∈ w3App.detectionResults, -80 ≤ pyInt d.class_id) ∧
    ∃ s, displayImage w3App (some 5) true = some s ∧
      s.scene = SceneItem.pixmap 5
        :: (w3App.detectionResults.map overlayPair).flatten ∧
      s.scene.countP isRectItem = w3App.detectionResults.length ∧
      s.scene.countP isTextItem = w3App.detectionResults.length ∧
      ∀ t : TextItem, SceneItem.text t ∈ s.scene → t.visible = false :=
  ⟨by decide, by decide,
    displayImage_overlay_render w3App 5 (by decide) (by decide)⟩

/-- C4: the Detect button starts disabled, detectObjects is a no-op
(state returned unchanged) when no buffer is stored, and a load whose
decode succeeds enables the Detect button. -/
theorem detect_enablement (detector : Image → List Detection)
    (decode : String → Option Image) (fp : String) (img : Image)
    (app : AppState) :
    initialState.detectEnabled = false ∧
    (app.image = none → detectObjects detector app = some app) ∧
    (decode fp = some img →
      (loadImage decode (some fp) app).detectEnabled = true) := by
  refine ⟨rfl, ?_, ?_⟩
  · intro h
    simp [detectObjects, h]
  · intro h
    rw [loadImage_success decode fp img app h]

/-- C4 (witness): the enablement facts at concrete inputs. -/
theorem detect_enablement_witness :
    initialState.detectEnabled = false ∧
    detectObjects (fun _ => []) initialState = some initialState ∧
    (loadImage (fun _ => some 3) (some "a.png") initialState).detectEnabled
      = true :=
  ⟨(detect_enablement (fun _ => []) (fun _ => some 3) "a.png" 3 initialState).1,
    (detect_enablement (fun _ => []) (fun _ => some 3) "a.png" 3
        initialState).2.1 rfl,
    (detect_enablement (fun _ => []) (fun _ => some 3) "a.png" 3
        initialState).2.2 rfl⟩

/-- C5 (counterexample): loading a second image leaves the first
image's Detection list stored (it is not discarded), even though the
scene no longer shows overlays. -/
theorem loadImage_stale_detections_counterexample :
    detectObjects (fun _ => [wDet]) loadedState = some detectedState ∧
    (loadImage (fun _ => some 2) (some "second.png")
        detectedState).detectionResults = [wDet] ∧
    (loadImage (fun _ => some 2) (some "second.png")
        detectedState).detectionResults ≠ [] ∧
    (loadImage (fun _ => some 2) (some "second.png") detectedState).scene
      = [SceneItem.pixmap 2] := by
  exact ⟨rfl, rfl, by decide, rfl⟩

/-- C5 (amended): loading a second image clears all overlays from the
scene (only the new pixmap remains), so Detect must be re-invoked to
produce overlays, but the stored Detection list of the first image is
retained, not discarded. -/
theorem loadImage_clears_overlays_keeps_results
    (decode : String → Option Image) (fp : String) (img : Image)
    (app : AppState) (hdec : decode fp = some img)
    (hclean : app.pixmapItem = none → app.scene = []) :
    (loadImage decode (some fp) app).scene = [SceneItem.pixmap img] ∧
    (loadImage decode (some fp) app).detectionResults
      = app.detectionResults := by
  have hpref : (if app.pixmapItem.isSome then [] else app.scene)
      = ([] : List SceneItem) := by
    rcases hpm : app.pixmapItem with _ | p
    · simpa [hpm] using hclean hpm
    · simp [hpm]
  rw [loadImage_success decode fp img app hdec]
  exact ⟨by rw [hpref, List.nil_append], rfl⟩

/-- C5 (witness): the amended claim at the concrete two-load run. -/
theorem loadImage_clears_overlays_keeps_results_witness :
    ((fun _ : String => some 2) "second.png" = some (2 : Image)) ∧
    (detectedState.pixmapItem = none → detectedState.scene = []) ∧
    (loadImage (fun _ => some 2) (some "second.png") detectedState).scene
        = [SceneItem.pixmap 2] ∧
    (loadImage (fun _ => some 2) (some "second.png")
        detectedState).detectionResults = detectedState.detectionResults :=
  ⟨rfl, by decide,
    loadImage_clears_overlays_keeps_results (fun _ => some 2) "second.png" 2
      detectedState rfl (by decide)⟩

/-- C6: pointer enter turns the stroke to the highlight pen and shows
the label, pointer leave restores the default pen and hides the label,
and any event sequence ending in a leave returns a freshly constructed
overlay to exactly its initial state. -/
theorem hover_state_machine (r : RectF) (object_name : String) (conf : Rat) :
    (∀ b : InteractiveBoundingBox,
      (hoverEnterEvent b).pen = greenPen ∧
      (hoverEnterEvent b).textItem.visible = true ∧
      (hoverLeaveEvent b).pen = redPen ∧
      (hoverLeaveEvent b).textItem.visible = false) ∧
    (mkInteractiveBoundingBox r object_name conf).pen = redPen ∧
    (mkInteractiveBoundingBox r object_name conf).textItem.visible = false ∧
    ∀ evs : List HoverEvent,
      applyHoverEvents (mkInteractiveBoundingBox r object_name conf)
          (evs ++ [HoverEvent.leave])
        = mkInteractiveBoundingBox r object_name conf := by
  refine ⟨fun b => ⟨rfl, rfl, rfl, rfl⟩, rfl, rfl, ?_⟩
  intro evs
  show (evs ++ [HoverEvent.leave]).foldl _ _ = _
  rw [List.foldl_append]
  show hoverLeaveEvent
      (applyHoverEvents (mkInteractiveBoundingBox r object_name conf) evs) = _
  rw [hoverLeave_applyHoverEvents]
  rfl

/-- C7: the overlay label text is exactly the object name, a space, and
the confidence to two decimal places in parentheses (0.8675 renders as
0.87), the label sits 5 right and 22 above the rectangle's top-left
corner, and it starts hidden. -/
theorem label_text_format (r : RectF) (object_name : String) (conf : Rat) :
    (mkInteractiveBoundingBox r object_name conf).textItem.text
        = object_name ++ " (" ++ formatFixed2 conf ++ ")" ∧
    (mkInteractiveBoundingBox r object_name conf).textItem.pos
        = (r.x + 5, r.y - 22) ∧
    (mkInteractiveBoundingBox r object_name conf).textItem.visible = false ∧
    (∃ whole frac, formatFixed2 conf = whole ++ "." ++ frac ∧
      frac.length = 2) ∧
    (mkInteractiveBoundingBox ⟨0, 0, 1, 1⟩ "car"
        (Rat.divInt 347 400)).textItem.text = "car (0.87)" := by
  refine ⟨rfl, rfl, rfl, ?_, ?_⟩
  · exact ⟨_, _, rfl, padded2_length _ (Nat.mod_lt _ (by decide))⟩
  · decide

/-- C8: with a stored image and a deterministic detector, running
Detect a second time reproduces exactly the state of the first run:
same stored detections, same scene items, same status. -/
theorem detectObjects_idempotent (detector : Image → List Detection)
    (app : AppState) (img : Image) (himg : app.image = some img)
    (hclean : app.pixmapItem = none → app.scene = [])
    (hvalid : ∀ d ∈ detector img, -80 ≤ pyInt d.class_id) :
    ∃ s, detectObjects detector app = some s ∧
      detectObjects detector s = some s := by
  have hpref : (if app.pixmapItem.isSome then [] else app.scene)
      = ([] : List SceneItem) := by
    rcases hpm : app.pixmapItem with _ | p
    · simpa [hpm] using hclean hpm
    · simp [hpm]
  have hrun : detectObjects detector app =
      some { app with
              detectionResults := detector img
              scene := SceneItem.pixmap img
                :: ((detector img).map overlayPair).flatten
              pixmapItem := some img
              statusMsg := "Detection Complete" } := by
    rw [detectObjects_run detector app img himg hvalid, hpref,
      List.nil_append]
  refine ⟨_, hrun, ?_⟩
  have himg2 : ({ app with
      detectionResults := detector img
      scene := SceneItem.pixmap img :: ((detector img).map overlayPair).flatten
      pixmapItem := some img
      statusMsg := "Detection Complete" } : AppState).image = some img := himg
  exact (detectObjects_run detector _ img himg2 hvalid).trans rfl

/-- C8 (witness): idempotency at a concrete loaded state and detector. -/
theorem detectObjects_idempotent_witness :
    ({ initialState with image := some 1 } : AppState).image = some 1 ∧
    (({ initialState with image := some 1 } : AppState).pixmapItem = none →
      ({ initialState with image := some 1 } : AppState).scene = []) ∧
    (∀ d ∈ (fun _ : Image => [wDet]) 1, -80 ≤ pyInt d.class_id) ∧
    ∃ s, detectObjects (fun _ => [wDet])
        { initialState with image := some 1 } = some s ∧
      detectObjects (fun _ => [wDet]) s = some s :=
  ⟨rfl, by decide, by decide,
    detectObjects_idempotent (fun _ => [wDet])
      { initialState with image := some 1 } 1 rfl (by decide) (by decide)⟩

/-- C9: a cancelled file dialog leaves the whole application state
unchanged: buffer, detections, button, scene and status message. -/
theorem loadImage_cancel_noop (decode : String → Option Image)
    (app : AppState) :
    loadImage decode none app = app :=
  rfl

/-- C10: a truncated class index in [-80,-1] resolves through Python
end-relative indexing to the table name at position 80 + index, and any
label it produces is a member of the Class Label Table (never an
"Unknown" label). -/
theorem drawBoundingBoxes_negative_end_indexing (i : Int)
    (h1 : -80 ≤ i) (h2 : i < 0) :
    resolveObjectName i = COCO_CLASSES.get? ((80 : Int) + i).toNat ∧
    ∀ s, resolveObjectName i = some s → s ∈ COCO_CLASSES := by
  have hc := resolveObjectName_eq_cases i
  rw [if_neg (by omega : ¬(0 ≤ i ∧ i < 80)),
    if_neg (by omega : ¬(80 : Int) ≤ i), if_pos h1] at hc
  refine ⟨hc, ?_⟩
  intro s hs
  rw [hc] at hs
  exact List.get?_mem hs

/-- C10 (witness): index -1 resolves to the last table entry,
"toothbrush". -/
theorem drawBoundingBoxes_negative_end_indexing_witness :
    (-80 : Int) ≤ -1 ∧ (-1 : Int) < 0 ∧
    resolveObjectName (-1) = COCO_CLASSES.get? ((80 : Int) + (-1)).toNat ∧
    resolveObjectName (-1) = some "toothbrush" :=
  ⟨by decide, by decide,
    (drawBoundingBoxes_negative_end_indexing (-1) (by decide) (by decide)).1,
    by decide⟩
